import Mathlib

/-!
Verification development for the gtfs_skane repository.

The Python sources are shallowly embedded:
* `src/gtfs_backend.py` — the departure query (`get_next_departure`) and the
  stop/route resolution (`set_stop_info`) over a relational GTFS store;
* `src/gtfs_data.py` — the data-lifecycle manager (`update_data`, retry
  wrapper, validator, metadata loading);
* `src/__init__.py` — the standalone download helper (`download_gtfs_data`).

Dates are day numbers (`Int`, days relative to an arbitrary epoch), times of
day are seconds (`Nat`).  A stored GTFS departure time is kept as the pair
(day offset of its date component past 1970-01-01, seconds of its time
component), mirroring how the pygtfs/SQLAlchemy store serialises interval
values as datetimes based at the epoch and how the SQL inspects them with
`date(st.departure_time)` and `time(st.departure_time)`.
-/

namespace GTFS

/-- A resolved local date-time: a calendar day number and seconds of day.
Comparison is lexicographic, matching SQLite string comparison of
`YYYY-MM-DD HH:MM:SS` values. -/
structure DT where
  day : Int
  tod : Nat
  deriving DecidableEq, Repr

/-- `a` is before or equal to `b` (lexicographic). -/
def DT.le (a b : DT) : Prop :=
  a.day < b.day ∨ (a.day = b.day ∧ a.tod ≤ b.tod)

/-- `a` is strictly before `b` (lexicographic), the SQL `<` on the
concatenated date-time strings. -/
def DT.lt (a b : DT) : Prop :=
  a.day < b.day ∨ (a.day = b.day ∧ a.tod < b.tod)

instance : DecidablePred (fun p : DT × DT => DT.le p.1 p.2) := by
  intro p
  unfold DT.le
  infer_instance

instance DT.decLe (a b : DT) : Decidable (DT.le a b) := by
  unfold DT.le
  infer_instance

instance DT.decLt (a b : DT) : Decidable (DT.lt a b) := by
  unfold DT.lt
  infer_instance

theorem DT.le_total (a b : DT) : DT.le a b ∨ DT.le b a := by
  rcases a with ⟨d, t⟩
  rcases b with ⟨e, u⟩
  unfold DT.le
  simp only
  omega

theorem DT.le_trans {a b c : DT} (h₁ : DT.le a b) (h₂ : DT.le b c) : DT.le a c := by
  rcases a with ⟨d, t⟩
  rcases b with ⟨e, u⟩
  rcases c with ⟨f, v⟩
  unfold DT.le at h₁ h₂ ⊢
  simp only at h₁ h₂ ⊢
  omega

/-- One row of the `baseData` CTE: the resolved departure date-time together
with the stop headsign. -/
structure Row where
  dt : DT
  headsign : String
  deriving DecidableEq, Repr

/-- Ordering of CTE rows used by `ORDER BY correctDepartureDateTime ASC`. -/
def rowLe (a b : Row) : Prop := DT.le a.dt b.dt

instance rowLe.dec : DecidableRel rowLe := fun a b => DT.decLe a.dt b.dt

instance rowLe.total : IsTotal Row rowLe := ⟨fun a b => DT.le_total a.dt b.dt⟩

instance rowLe.trans : IsTrans Row rowLe := ⟨fun _ _ _ h₁ h₂ => DT.le_trans h₁ h₂⟩

/-- A row of the `trips` table (the columns the queries touch). -/
structure Trip where
  trip_id : String
  route_id : String
  service_id : String
  direction_id : Nat
  deriving DecidableEq, Repr

/-- A row of the `stop_times` table.  `depOffset` is the number of days the
date component of the stored departure time lies past 1970-01-01 (0 when the
GTFS time had not rolled past 24:00, 1 when it rolled past once, and so on);
`depTod` is the seconds of its time component. -/
structure StopTime where
  trip_id : String
  stop_id : String
  depOffset : Nat
  depTod : Nat
  stop_headsign : String
  deriving DecidableEq, Repr

/-- A row of the `calendar_dates` table. -/
structure CalendarDate where
  service_id : String
  date : Int
  deriving DecidableEq, Repr

/-- A row of the `stops` table. -/
structure StopRow where
  stop_id : String
  stop_name : String
  stop_lat : String
  stop_lon : String
  location_type : String
  parent_station : String
  wheelchair_boarding : String
  platform_code : String
  deriving DecidableEq, Repr

/-- A row of the `routes` table. -/
structure RouteRow where
  route_id : String
  agency_id : String
  route_short_name : String
  route_long_name : String
  route_desc : String
  route_type : Nat
  deriving DecidableEq, Repr

/-- A row of the `agency` table. -/
structure AgencyRow where
  agency_id : String
  agency_name : String
  agency_url : String
  agency_timezone : String
  deriving DecidableEq, Repr

/-- The converted GTFS store (the tables the embedded queries read). -/
structure DB where
  trips : List Trip
  stop_times : List StopTime
  stops : List StopRow
  calendar_dates : List CalendarDate
  routes : List RouteRow
  agency : List AgencyRow
  deriving Repr

/-- The route identifier bound to the `:route_id` placeholder by
`GTFSBackend.get_next_departure` (a literal constant in the Python call). -/
def hardcodedRouteId : String := "9011012001600000"

/-- Membership test for the `INNER JOIN stops s ON st.stop_id = s.stop_id`
clause restricted to `st.stop_id = :origin_station_id`. -/
def stopPresent (db : DB) (stopId : String) : Bool :=
  db.stops.any (fun s => s.stop_id == stopId)

/-- The `t.service_id in (SELECT service_id from calendar_dates where
date = d)` subquery. -/
def serviceActive (db : DB) (sid : String) (d : Int) : Bool :=
  db.calendar_dates.any (fun cd => cd.service_id == sid && cd.date == d)

/-- One arm of the `UNION` in `get_next_departure`: candidate rows for the
service date `svcDate`.  The `CASE` resolves the departure date to `thenD`
when the stored date component equals 1970-01-01 (no rollover) and to
`elseD` otherwise, and keeps the stored time component. -/
def windowRows (db : DB) (routeId stopId : String) (svcDate thenD elseD : Int) : List Row :=
  if stopPresent db stopId then
    (db.trips.filter
        (fun t => t.route_id == routeId && t.direction_id == 1 &&
          serviceActive db t.service_id svcDate)).flatMap
      (fun t =>
        (db.stop_times.filter
            (fun st => st.trip_id == t.trip_id && st.stop_id == stopId)).map
          (fun st =>
            ⟨⟨if st.depOffset == 0 then thenD else elseD, st.depTod⟩, st.stop_headsign⟩))
  else []

/-- The `baseData` CTE: the `UNION` (set union, so duplicate rows collapse)
of the three service-date windows — yesterday, today and tomorrow relative
to `today = date('now')` — each with its own `CASE` date arithmetic. -/
def baseData (db : DB) (routeId stopId : String) (today : Int) : List Row :=
  (windowRows db routeId stopId (today - 1) (today - 1) today ++
   windowRows db routeId stopId today today (today + 1) ++
   windowRows db routeId stopId (today + 1) (today + 1) (today + 2)).dedup

/-- The full SQL query: order `baseData` ascending by resolved date-time,
keep rows strictly after `now` (`datetime('now', 'localtime')`), and take at
most `LIMIT 3` of them. -/
def queryRows (db : DB) (routeId stopId : String) (today : Int) (now : DT) : List Row :=
  (((baseData db routeId stopId today).insertionSort rowLe).filter
      (fun r => decide (DT.lt now r.dt))).take 3

/-- The tail of the Python method: `None` when fewer than 3 departures were
fetched (`len(departures) < 3`), else the dict of the first three.  The
query rows always number at most 3 because of the `LIMIT`. -/
def takeTriple (l : List Row) : Option (Row × Row × Row) :=
  match l with
  | [a, b, c] => some (a, b, c)
  | _ => none

/-- The Python method body with the route identifier as the bound SQL
parameter: build the departures list from the query rows and return `None`
when fewer than 3 were produced, else the triple (next, second, third). -/
def nextDepartureQuery (routeId : String) (db : DB) (stopId : String)
    (today : Int) (now : DT) : Option (Row × Row × Row) :=
  takeTriple (queryRows db routeId stopId today now)

/-- `GTFSBackend.get_next_departure`: the query with `:route_id` bound to
the hardcoded constant. -/
def get_next_departure (db : DB) (stopId : String) (today : Int) (now : DT) :
    Option (Row × Row × Row) :=
  nextDepartureQuery hardcodedRouteId db stopId today now

/-- The departure-date resolution as the specification words it: a stored
time whose day offset is exactly one maps to the day after the service date,
every other stored time maps to the service date itself. -/
def specResolvedDay (svcDate : Int) (depOffset : Nat) : Int :=
  if depOffset = 1 then svcDate + 1 else svcDate

/-- The qualifying departures of a query: the candidates of the three
windows (after the `UNION` dedup) whose resolved date-time lies strictly
after `now`. -/
def qualifying (db : DB) (sid : String) (today : Int) (now : DT) : List Row :=
  (baseData db hardcodedRouteId sid today).filter (fun r => decide (DT.lt now r.dt))

/-! ## Lifecycle model (`GTFSDataManager.update_data`, src/gtfs_data.py) -/

/-- The `state` field of the manager's state dict. -/
inductive UState
  | idle
  | downloading
  | converting
  | validating
  | error
  deriving DecidableEq, Repr

/-- A snapshot of the state dict: state, progress, error message. -/
structure LState where
  st : UState
  progress : Option Nat
  errMsg : Option String
  deriving DecidableEq, Repr

/-- Observable events of one `update_data` run. -/
inductive Event
  | enter (s : LState)
  | metadataSaved
  | zipDeleted
  deriving DecidableEq, Repr

/-- Which phases of a run raise, and with what message (`none` = the phase
succeeds).  The two flags record what a failing phase leaves on disk: the
manager's fetch performs no cleanup of a partly written zip, and an aborted
conversion can leave a half-built database file. -/
structure RunConfig where
  cleanupErr : Option String
  downloadErr : Option String
  convertErr : Option String
  validateErr : Option String
  failedFetchLeavesZip : Bool
  failedConvertLeavesDb : Bool
  deriving DecidableEq, Repr

/-- Existence of the three on-disk artifacts. -/
structure FS where
  dbExists : Bool
  zipExists : Bool
  metaExists : Bool
  deriving DecidableEq, Repr

/-- Outcome of one `update_data` run: the emitted events, the re-raised
exception message (`none` on success) and the resulting filesystem. -/
structure RunResult where
  trace : List Event
  raised : Option String
  fs : FS
  deriving DecidableEq, Repr

/-- `GTFSDataManager.update_data`: set `downloading`/0, delete the old
database and zip, set progress 25, download, set `converting`/50, convert,
set `validating`/90, validate, save metadata, delete the zip, set `idle`/100;
any raising phase instead sets `error` with the message and progress `None`
and re-raises. -/
def updateData (cfg : RunConfig) (fs0 : FS) : RunResult :=
  let e1 := [Event.enter ⟨UState.downloading, some 0, none⟩]
  match cfg.cleanupErr with
  | some m => ⟨e1 ++ [Event.enter ⟨UState.error, none, some m⟩], some m, fs0⟩
  | none =>
  let fs1 : FS := ⟨false, false, fs0.metaExists⟩
  let e2 := e1 ++ [Event.enter ⟨UState.downloading, some 25, none⟩]
  match cfg.downloadErr with
  | some m =>
      ⟨e2 ++ [Event.enter ⟨UState.error, none, some m⟩], some m,
        ⟨false, cfg.failedFetchLeavesZip, fs1.metaExists⟩⟩
  | none =>
  let fs2 : FS := ⟨false, true, fs1.metaExists⟩
  let e3 := e2 ++ [Event.enter ⟨UState.converting, some 50, none⟩]
  match cfg.convertErr with
  | some m =>
      ⟨e3 ++ [Event.enter ⟨UState.error, none, some m⟩], some m,
        ⟨cfg.failedConvertLeavesDb, true, fs2.metaExists⟩⟩
  | none =>
  let fs3 : FS := ⟨true, true, fs2.metaExists⟩
  let e4 := e3 ++ [Event.enter ⟨UState.validating, some 90, none⟩]
  match cfg.validateErr with
  | some m => ⟨e4 ++ [Event.enter ⟨UState.error, none, some m⟩], some m, fs3⟩
  | none =>
  let e5 := e4 ++ [Event.metadataSaved, Event.zipDeleted]
  ⟨e5 ++ [Event.enter ⟨UState.idle, some 100, none⟩], none, ⟨true, false, true⟩⟩

/-! ## Download retry wrapper (`_download_with_retry`) -/

def MAX_DOWNLOAD_RETRIES : Nat := 3

def RETRY_DELAYS : List Nat := [5, 15, 30]

/-- Outcome of one retry-wrapped download: how many attempts ran, the sleeps
performed between attempts, and either success or the terminal error
carrying the attempt count and the last cause. -/
structure RetryResult where
  attemptsMade : Nat
  delays : List Nat
  outcome : Except (Nat × String) Unit
  deriving Repr

/-- The `for attempt in range(MAX_DOWNLOAD_RETRIES)` loop: try the download;
on failure sleep `RETRY_DELAYS[attempt]` and continue unless this was the
final attempt, in which case raise the terminal error carrying
`MAX_DOWNLOAD_RETRIES` and the cause.  `attemptErr a` is the exception
message of attempt `a` (`none` = that attempt succeeds). -/
def retryAttempts (attemptErr : Nat → Option String) : Nat → Nat → RetryResult
  | _, 0 => ⟨0, [], Except.ok ()⟩
  | a, r + 1 =>
    match attemptErr a with
    | none => ⟨1, [], Except.ok ()⟩
    | some e =>
      if a < MAX_DOWNLOAD_RETRIES - 1 then
        let rest := retryAttempts attemptErr (a + 1) r
        ⟨rest.attemptsMade + 1, RETRY_DELAYS.getD a 0 :: rest.delays, rest.outcome⟩
      else
        ⟨1, [], Except.error (MAX_DOWNLOAD_RETRIES, e)⟩

/-- `GTFSDataManager._download_with_retry`. -/
def downloadWithRetry (attemptErr : Nat → Option String) : RetryResult :=
  retryAttempts attemptErr 0 MAX_DOWNLOAD_RETRIES

/-! ## Single-fetch models (`download_gtfs_data` in src/__init__.py and
`GTFSDataManager._download_gtfs_zip` in src/gtfs_data.py) -/

/-- How one HTTP fetch goes: a non-200 response (raised before the
destination is opened), a transport error after writing some chunks (the
destination was opened and hence created), or success. -/
inductive FetchOutcome
  | httpErr (status : Nat)
  | transportErr (chunks : Nat) (msg : String)
  | success (chunks : Nat)
  deriving DecidableEq, Repr

/-- After one fetch: does the destination file exist, and what was raised. -/
structure FetchResult where
  destExists : Bool
  raised : Option String
  deriving DecidableEq, Repr

/-- `download_gtfs_data` (src/__init__.py): on any exception inside the
`try`, the `except` deletes the destination if it exists and re-raises —
so the prior existence of the destination never shows in the outcome. -/
def download_gtfs_data (o : FetchOutcome) (_destExists0 : Bool) : FetchResult :=
  match o with
  | FetchOutcome.httpErr s =>
      ⟨false, some ("Failed to download GTFS data: HTTP " ++ toString s)⟩
  | FetchOutcome.transportErr _ m => ⟨false, some m⟩
  | FetchOutcome.success _ => ⟨true, none⟩

/-- `GTFSDataManager._download_gtfs_zip` (src/gtfs_data.py): no cleanup
clause, so a non-200 status leaves any pre-existing destination in place and
a transport error mid-write leaves the freshly created partial file. -/
def download_gtfs_zip (o : FetchOutcome) (destExists0 : Bool) : FetchResult :=
  match o with
  | FetchOutcome.httpErr s =>
      ⟨destExists0, some ("Failed to download GTFS data: HTTP " ++ toString s)⟩
  | FetchOutcome.transportErr _ m => ⟨true, some m⟩
  | FetchOutcome.success _ => ⟨true, none⟩

/-! ## Validator (`GTFSDataManager._validate_data`) -/

def required_tables : List String :=
  ["agency", "stops", "routes", "trips", "stop_times", "calendar_dates"]

/-- The converted store as the validator sees it: whether the database file
exists, and the tables present with their row counts. -/
structure Store where
  fileExists : Bool
  tables : List (String × Nat)
  deriving DecidableEq, Repr

/-- `SELECT COUNT(*) FROM t` (0 is unreachable for absent tables because the
validator checks existence first). -/
def rowCount (s : Store) (t : String) : Nat :=
  match s.tables.find? (fun p => p.1 == t) with
  | some p => p.2
  | none => 0

/-- `GTFSDataManager._validate_data`: file exists, no required table
missing, and every required table non-empty (checked in order, first
violation raises). -/
def validate_data (s : Store) : Except String Unit :=
  if s.fileExists = false then Except.error "Database file not created"
  else if (required_tables.filter
      (fun t => !((s.tables.map Prod.fst).contains t))) ≠ [] then
    Except.error "Database missing required tables"
  else
    match required_tables.find? (fun t => rowCount s t == 0) with
    | some t => Except.error ("Table " ++ t ++ " is empty")
    | none => Except.ok ()

/-! ## Stop/route resolution (`GTFSBackend.set_stop_info`) -/

/-- The full projected tuple of the `set_stop_info` join — also the
`GROUP BY` key (all nineteen selected columns). -/
structure JoinRow where
  stop_id : String
  stop_name : String
  stop_lat : String
  stop_lon : String
  location_type : String
  parent_station : String
  wheelchair_boarding : String
  platform_code : String
  route_id : String
  agency_id : String
  agency_name : String
  agency_url : String
  agency_timezone : String
  route_short_name : String
  route_long_name : String
  route_desc : String
  route_type : Nat
  direction_id : Nat
  stop_headsign : String
  deriving DecidableEq, Repr

/-- The raw join `stops ⋈ stop_times ⋈ trips ⋈ routes ⋈ agency` restricted
to `s.stop_id = :stop_id`, before grouping. -/
def joinRows (db : DB) (stopId : String) : List JoinRow :=
  (db.stops.filter (fun s => s.stop_id == stopId)).flatMap (fun s =>
    (db.stop_times.filter (fun st => st.stop_id == s.stop_id)).flatMap (fun st =>
      (db.trips.filter (fun t => t.trip_id == st.trip_id)).flatMap (fun t =>
        (db.routes.filter (fun r => r.route_id == t.route_id)).flatMap (fun r =>
          (db.agency.filter (fun a => a.agency_id == r.agency_id)).map (fun a =>
            ⟨s.stop_id, s.stop_name, s.stop_lat, s.stop_lon, s.location_type,
             s.parent_station, s.wheelchair_boarding, s.platform_code,
             r.route_id, r.agency_id, a.agency_name, a.agency_url,
             a.agency_timezone, r.route_short_name, r.route_long_name,
             r.route_desc, r.route_type, t.direction_id, st.stop_headsign⟩)))))

/-- The `GROUP BY` over the full tuple: one row per distinct tuple. -/
def groupedRows (db : DB) (stopId : String) : List JoinRow :=
  (joinRows db stopId).dedup

/-- The `Route` TypedDict of src/gtfs_backend.py. -/
structure Route where
  id : String
  short_name : String
  long_name : String
  description : String
  type : Nat
  direction : Nat
  agency_id : String
  agency_name : String
  agency_url : String
  headsign : String
  deriving DecidableEq, Repr

/-- The `Stop` TypedDict of src/gtfs_backend.py. -/
structure Stop where
  id : String
  name : String
  lat : String
  lon : String
  location_type : String
  parent_station : String
  timezone : String
  wheelchair_boarding : String
  platform_code : String
  routes : List Route
  deriving DecidableEq, Repr

/-- Building one `Route` entry from a grouped row. -/
def toRoute (g : JoinRow) : Route :=
  ⟨g.route_id, g.route_short_name, g.route_long_name, g.route_desc,
   g.route_type, g.direction_id, g.agency_id, g.agency_name, g.agency_url,
   g.stop_headsign⟩

/-- The mutable fields of a `GTFSBackend` instance. -/
structure Backend where
  stop_id : String
  stop : Option Stop
  routes : List Route
  active_routes : List String
  deriving DecidableEq, Repr

/-- `GTFSBackend.__init__`. -/
def Backend.init (stopId : String) : Backend := ⟨stopId, none, [], []⟩

/-- `GTFSBackend.set_stop_info`: run the grouped join; with no rows, reset
`_routes` and `_stop` (but not `_active_routes`) and return; otherwise
append every grouped row to the instance lists `_routes` and
`_active_routes` and rebuild `_stop` from the first row and the (appended)
`_routes` list. -/
def set_stop_info (db : DB) (b : Backend) : Backend :=
  match groupedRows db b.stop_id with
  | [] => { b with routes := [], stop := none }
  | g :: _ =>
    let routes1 := b.routes ++ (groupedRows db b.stop_id).map toRoute
    let active1 := b.active_routes ++ (groupedRows db b.stop_id).map JoinRow.route_id
    { b with
      routes := routes1
      active_routes := active1
      stop := some ⟨g.stop_id, g.stop_name, g.stop_lat, g.stop_lon,
        g.location_type, g.parent_station, g.agency_timezone,
        g.wheelchair_boarding, g.platform_code, routes1⟩ }

/-! ## Metadata loading (`_load_metadata`, `get_metadata`) -/

/-- A loaded metadata dict: the converted `last_download` value (datetimes
are modelled as an opaque `Int` timestamp) and the remaining entries. -/
structure MetaDict where
  last_download : Option Int
  extra : List (String × String)
  deriving DecidableEq, Repr

/-- The empty dict returned on every load failure. -/
def MetaDict.empty : MetaDict := ⟨none, []⟩

/-- The states the metadata file can be in: absent, unreadable (open
fails), not valid JSON, or a JSON object with an optional `last_download`
string and other entries. -/
inductive MetaFile
  | absent
  | unreadable
  | invalidJson
  | valid (last_download : Option String) (extra : List (String × String))
  deriving DecidableEq, Repr

/-- The body of the `try` in `_load_metadata`: open and decode the file and
convert `last_download` with `datetime.fromisoformat` (modelled by the
injected `parse`; `parse s = none` means `fromisoformat` raises on `s`).
The `absent` case never reaches the `try` — it is guarded outside. -/
def loadMetadataBody (parse : String → Option Int) :
    MetaFile → Except String MetaDict
  | MetaFile.absent => Except.error "unreachable: guarded by the exists check"
  | MetaFile.unreadable => Except.error "could not open metadata file"
  | MetaFile.invalidJson => Except.error "Expecting value"
  | MetaFile.valid ld extra =>
    match ld with
    | none => Except.ok ⟨none, extra⟩
    | some s =>
      match parse s with
      | none => Except.error ("Invalid isoformat string: " ++ s)
      | some d => Except.ok ⟨some d, extra⟩

/-- `GTFSDataManager._load_metadata`: `{}` when the file is absent,
otherwise the `try` body with every exception caught and turned into `{}`. -/
def load_metadata (parse : String → Option Int) (f : MetaFile) : MetaDict :=
  if f = MetaFile.absent then MetaDict.empty
  else
    match loadMetadataBody parse f with
    | Except.ok m => m
    | Except.error _ => MetaDict.empty

/-- `get_metadata` on a manager constructed over file state `f`: the
constructor stores `_load_metadata()` and `get_metadata` returns a copy. -/
def get_metadata (parse : String → Option Int) (f : MetaFile) : MetaDict :=
  load_metadata parse f

/-! ## Concrete fixtures used by counterexamples and witnesses -/

/-- A stop row for stop id `A`. -/
def stopA : StopRow := ⟨"A", "Stop A", "55.6", "13.0", "0", "", "1", "2"⟩

/-- A trip on the hardcoded route, direction 1, service `S1`. -/
def trip1 : Trip := ⟨"T1", hardcodedRouteId, "S1", 1⟩

/-- Service `S1` runs on day 0 only. -/
def calS1Day0 : CalendarDate := ⟨"S1", 0⟩

/-- Departure stored as `25:30:00`: day offset 1, time 01:30:00. -/
def dbRolled : DB :=
  ⟨[trip1], [⟨"T1", "A", 1, 5400, "H"⟩], [stopA], [calS1Day0], [], []⟩

/-- Departure stored as exactly `00:00:00`: day offset 0, time 0. -/
def dbMidnight : DB :=
  ⟨[trip1], [⟨"T1", "A", 0, 0, "H"⟩], [stopA], [calS1Day0], [], []⟩

/-- Departure stored as `49:30:00`: day offset 2, time 01:30:00. -/
def dbRolled2 : DB :=
  ⟨[trip1], [⟨"T1", "A", 2, 5400, "H"⟩], [stopA], [calS1Day0], [], []⟩

/-- Three future departures, but every trip lies on route `R2`, not on the
hardcoded route. -/
def dbR2 : DB :=
  ⟨[⟨"T2", "R2", "S1", 1⟩],
   [⟨"T2", "A", 0, 100, "H"⟩, ⟨"T2", "A", 0, 200, "H"⟩, ⟨"T2", "A", 0, 300, "H"⟩],
   [stopA], [calS1Day0], [], []⟩

/-- A run in which every phase succeeds. -/
def cfgOk : RunConfig := ⟨none, none, none, none, false, false⟩

/-- A run in which the download phase fails. -/
def cfgDlFail : RunConfig := ⟨none, some "network unreachable", none, none, false, false⟩

/-- A filesystem that already holds a full installed dataset. -/
def fsFull : FS := ⟨true, true, true⟩

/-- Every download attempt fails with the same message. -/
def failAll : Nat → Option String := fun _ => some "boom"

/-- A store with all six required tables non-empty. -/
def goodStore : Store :=
  ⟨true, [("agency", 1), ("stops", 5), ("routes", 2), ("trips", 3),
          ("stop_times", 9), ("calendar_dates", 4)]⟩

/-- An agency row. -/
def agency1 : AgencyRow := ⟨"AG", "Agency", "http://agency.example", "CET"⟩

/-- A route row on route `R1` operated by `agency1`. -/
def route1 : RouteRow := ⟨"R1", "AG", "1", "Line 1", "", 3⟩

/-- Stop `A` served by two trips with identical (route, direction,
headsign) but different trip ids. -/
def db9 : DB :=
  ⟨[⟨"T1", "R1", "S1", 1⟩, ⟨"T2", "R1", "S1", 1⟩],
   [⟨"T1", "A", 0, 100, "H"⟩, ⟨"T2", "A", 0, 200, "H"⟩],
   [stopA], [calS1Day0], [route1], [agency1]⟩

/-- Stop `A` served by the same route in two directions. -/
def db9b : DB :=
  ⟨[⟨"T1", "R1", "S1", 1⟩, ⟨"T2", "R1", "S1", 0⟩],
   [⟨"T1", "A", 0, 100, "H"⟩, ⟨"T2", "A", 0, 200, "H"⟩],
   [stopA], [calS1Day0], [route1], [agency1]⟩

/-- A concrete model of `datetime.fromisoformat`: accepts one string. -/
def isoParse : String → Option Int := fun s =>
  if s = "2024-01-01T00:00:00" then some 1704067200 else none

/-! ## Shared lemmas -/

/-- Provenance of a candidate row of one `UNION` arm: it comes from some
`stop_times` row, keeps that row's time component, and its date is the
`THEN` date when the stored date component is the epoch day and the `ELSE`
date otherwise. -/
theorem exists_stop_time_of_mem_windowRows {db : DB} {rid sid : String}
    {svc thenD elseD : Int} {r : Row}
    (h : r ∈ windowRows db rid sid svc thenD elseD) :
    ∃ st ∈ db.stop_times, st.stop_id = sid ∧ r.dt.tod = st.depTod ∧
      r.dt.day = (if st.depOffset = 0 then thenD else elseD) ∧
      r.headsign = st.stop_headsign := by
  unfold windowRows at h
  split at h
  · simp only [List.mem_flatMap, List.mem_filter, List.mem_map,
      Bool.and_eq_true, beq_iff_eq] at h
    obtain ⟨t, ⟨-, -⟩, st, ⟨hstMem, -, hstStop⟩, hr⟩ := h
    refine ⟨st, hstMem, hstStop, ?_⟩
    subst hr
    refine ⟨rfl, ?_, rfl⟩
    by_cases h0 : st.depOffset = 0 <;> simp [h0]
  · simp at h

end GTFS

namespace GTFS

/-- C1: for each of the three service-date windows, the engine resolves a
stored departure time with a nonzero day offset (time rolled past 24:00) to
the calendar day after the service date, and a stored time with day offset
zero — including exactly 00:00:00 — to the service date itself.  The
amendment: the code sends every nonzero day offset (not only an offset of
exactly one) to the next day.  Concretely, `25:30:00` on service date 0
resolves to day 1 at 01:30:00 and `00:00:00` on service date 0 resolves to
day 0 at 00:00:00. -/
theorem c1_day_rollover :
    (∀ (db : DB) (rid sid : String) (svc : Int) (r : Row),
        r ∈ windowRows db rid sid svc svc (svc + 1) →
        ∃ st ∈ db.stop_times, r.dt.tod = st.depTod ∧
          (st.depOffset = 0 → r.dt.day = svc) ∧
          (st.depOffset ≠ 0 → r.dt.day = svc + 1))
  ∧ (∀ (db : DB) (sid : String) (today : Int),
      baseData db hardcodedRouteId sid today =
        (windowRows db hardcodedRouteId sid (today - 1) (today - 1) ((today - 1) + 1) ++
         windowRows db hardcodedRouteId sid today today (today + 1) ++
         windowRows db hardcodedRouteId sid (today + 1) (today + 1) ((today + 1) + 1)).dedup)
  ∧ baseData dbRolled hardcodedRouteId "A" 0 = [⟨⟨1, 5400⟩, "H"⟩]
  ∧ baseData dbMidnight hardcodedRouteId "A" 0 = [⟨⟨0, 0⟩, "H"⟩] := by
  refine ⟨?_, ?_, by decide, by decide⟩
  · intro db rid sid svc r h
    obtain ⟨st, hmem, -, htod, hday, -⟩ := exists_stop_time_of_mem_windowRows h
    refine ⟨st, hmem, htod, ?_, ?_⟩
    · intro h0
      simpa [h0] using hday
    · intro h0
      simpa [h0] using hday
  · intro db sid today
    have h1 : (today - 1) + 1 = today := by omega
    have h2 : (today + 1) + 1 = today + 2 := by omega
    rw [h1, h2]
    rfl

/-- C1 witness: the provenance clause applied to the concrete `25:30:00`
database, whose single candidate row lies in the today-window. -/
theorem c1_day_rollover_witness :
    ∃ st ∈ dbRolled.stop_times,
      (⟨⟨1, 5400⟩, "H"⟩ : Row).dt.tod = st.depTod ∧
      (st.depOffset = 0 → (⟨⟨1, 5400⟩, "H"⟩ : Row).dt.day = 0) ∧
      (st.depOffset ≠ 0 → (⟨⟨1, 5400⟩, "H"⟩ : Row).dt.day = 0 + 1) :=
  c1_day_rollover.1 dbRolled hardcodedRouteId "A" 0 ⟨⟨1, 5400⟩, "H"⟩ (by decide)

/-- C1 counterexample: a departure stored as `49:30:00` (day offset 2, not
exactly one) on service date 0.  The claim resolves it to the service date
itself (`specResolvedDay 0 2 = 0`), but the engine resolves it to day 1. -/
theorem c1_counterexample :
    dbRolled2.stop_times = [⟨"T1", "A", 2, 5400, "H"⟩]
  ∧ specResolvedDay 0 2 = 0
  ∧ baseData dbRolled2 hardcodedRouteId "A" 0 = [⟨⟨1, 5400⟩, "H"⟩]
  ∧ ((1 : Int) = 0 → False) := by
  refine ⟨rfl, rfl, by decide, by decide⟩

/-- `takeTriple` yields `none` exactly on lists shorter than 3, given the
`LIMIT 3` bound. -/
theorem takeTriple_eq_none_iff {l : List Row} (hle : l.length ≤ 3) :
    takeTriple l = none ↔ l.length < 3 := by
  rcases l with _ | ⟨a, _ | ⟨b, _ | ⟨c, _ | ⟨d, tl⟩⟩⟩⟩ <;> simp_all [takeTriple]

/-- `takeTriple` yields a triple exactly from the three-element list. -/
theorem takeTriple_eq_some_iff {l : List Row} {a b c : Row} :
    takeTriple l = some (a, b, c) ↔ l = [a, b, c] := by
  rcases l with _ | ⟨x, _ | ⟨y, _ | ⟨z, _ | ⟨w, tl⟩⟩⟩⟩ <;> simp_all [takeTriple]

/-- C2: the query unions the three windows' candidates (set union), keeps
the ones strictly after `now`, and returns `None` exactly when fewer than
three qualify; a returned triple consists of qualifying candidates in
ascending resolved date-time order, and every other qualifying candidate is
no earlier than the third returned one. -/
theorem c2_three_earliest (db : DB) (sid : String) (today : Int) (now : DT) :
    (get_next_departure db sid today now = none ↔
      (qualifying db sid today now).length < 3)
  ∧ (∀ a b c, get_next_departure db sid today now = some (a, b, c) →
      ((a ∈ baseData db hardcodedRouteId sid today ∧ DT.lt now a.dt)
     ∧ (b ∈ baseData db hardcodedRouteId sid today ∧ DT.lt now b.dt)
     ∧ (c ∈ baseData db hardcodedRouteId sid today ∧ DT.lt now c.dt))
    ∧ (DT.le a.dt b.dt ∧ DT.le b.dt c.dt)
    ∧ (∀ r ∈ baseData db hardcodedRouteId sid today, DT.lt now r.dt →
        r ≠ a → r ≠ b → r ≠ c → DT.le c.dt r.dt)) := by
  have hperm := List.perm_insertionSort rowLe (baseData db hardcodedRouteId sid today)
  have hsort := List.sorted_insertionSort rowLe (baseData db hardcodedRouteId sid today)
  have hFsort : List.Sorted rowLe
      (((baseData db hardcodedRouteId sid today).insertionSort rowLe).filter
        (fun r => decide (DT.lt now r.dt))) :=
    List.Pairwise.filter _ hsort
  have hFperm :
      (((baseData db hardcodedRouteId sid today).insertionSort rowLe).filter
        (fun r => decide (DT.lt now r.dt))).Perm
      (qualifying db sid today now) :=
    hperm.filter _
  have hG : get_next_departure db sid today now =
      takeTriple ((((baseData db hardcodedRouteId sid today).insertionSort rowLe).filter
        (fun r => decide (DT.lt now r.dt))).take 3) := rfl
  constructor
  · rw [hG, takeTriple_eq_none_iff (List.length_take_le 3 _), List.length_take,
      hFperm.length_eq]
    omega
  · intro a b c h
    rw [hG, takeTriple_eq_some_iff] at h
    have hsub : [a, b, c].Sublist
        (((baseData db hardcodedRouteId sid today).insertionSort rowLe).filter
          (fun r => decide (DT.lt now r.dt))) :=
      h ▸ List.take_sublist 3 _
    have hmemF : ∀ x ∈ [a, b, c],
        x ∈ baseData db hardcodedRouteId sid today ∧ DT.lt now x.dt := by
      intro x hx
      have hxF := hsub.subset hx
      rw [List.mem_filter] at hxF
      exact ⟨hperm.mem_iff.mp hxF.1, of_decide_eq_true hxF.2⟩
    have hpw : List.Pairwise rowLe [a, b, c] := List.Pairwise.sublist hsub hFsort
    refine ⟨⟨hmemF a (by simp), hmemF b (by simp), hmemF c (by simp)⟩, ?_, ?_⟩
    · simp only [List.pairwise_cons, List.mem_cons, List.mem_singleton,
        List.not_mem_nil] at hpw
      exact ⟨hpw.1 b (Or.inl rfl), hpw.2.1 c (Or.inl rfl)⟩
    · intro r hrB hrlt hra hrb hrc
      have hrF : r ∈ (((baseData db hardcodedRouteId sid today).insertionSort rowLe).filter
          (fun r => decide (DT.lt now r.dt))) :=
        List.mem_filter.mpr ⟨hperm.mem_iff.mpr hrB, decide_eq_true hrlt⟩
      rw [← List.take_append_drop 3
        (((baseData db hardcodedRouteId sid today).insertionSort rowLe).filter
          (fun r => decide (DT.lt now r.dt)))] at hrF hFsort
      rcases List.mem_append.mp hrF with hrT | hrD
      · rw [h] at hrT
        simp only [List.mem_cons, List.not_mem_nil, or_false] at hrT
        rcases hrT with rfl | rfl | rfl
        · exact absurd rfl hra
        · exact absurd rfl hrb
        · exact absurd rfl hrc
      · have hcross := (List.pairwise_append.mp hFsort).2.2
        exact hcross c (by rw [h]; simp) r hrD

/-- C2 witness: on the database with three future departures on the
hardcoded route, the query returns a triple, and on the rolled-time
database with a single candidate it returns `None`. -/
theorem c2_three_earliest_witness :
    (get_next_departure dbRolled "A" 0 ⟨0, 600⟩ = none ↔
      (qualifying dbRolled "A" 0 ⟨0, 600⟩).length < 3) ∧
    (qualifying dbRolled "A" 0 ⟨0, 600⟩).length < 3 :=
  ⟨(c2_three_earliest dbRolled "A" 0 ⟨0, 600⟩).1, by decide⟩

/-- Every candidate row of a window arises from a trip on the window's
route parameter. -/
theorem mem_windowRows_route {db : DB} {rid sid : String}
    {svc thenD elseD : Int} {r : Row}
    (h : r ∈ windowRows db rid sid svc thenD elseD) :
    ∃ t ∈ db.trips, t.route_id = rid := by
  unfold windowRows at h
  split at h
  · simp only [List.mem_flatMap, List.mem_filter, Bool.and_eq_true,
      beq_iff_eq] at h
    obtain ⟨t, ⟨htMem, ⟨hroute, -⟩, -⟩, -⟩ := h
    exact ⟨t, htMem, hroute⟩
  · simp at h

/-- C3 (amended): the route identifier is not an input of
`get_next_departure`; the method binds the SQL parameter to the constant
`"9011012001600000"`, so a database whose trips all lie on other routes
yields no departures at all. -/
theorem c3_hardcoded_route (db : DB) (sid : String) (today : Int) (now : DT)
    (h : ∀ t ∈ db.trips, t.route_id ≠ hardcodedRouteId) :
    get_next_departure db sid today now = none := by
  have hw : ∀ svc thenD elseD : Int,
      windowRows db hardcodedRouteId sid svc thenD elseD = [] := by
    intro svc thenD elseD
    rw [List.eq_nil_iff_forall_not_mem]
    intro r hr
    obtain ⟨t, htMem, hroute⟩ := mem_windowRows_route hr
    exact h t htMem hroute
  simp [get_next_departure, nextDepartureQuery, queryRows, baseData, hw, takeTriple]

/-- C3 witness: the hardcoded-route theorem applied to the concrete
database whose only trip lies on route `R2`. -/
theorem c3_hardcoded_route_witness :
    get_next_departure dbR2 "A" 0 ⟨0, 50⟩ = none :=
  c3_hardcoded_route dbR2 "A" 0 ⟨0, 50⟩ (by decide)

/-- C3 counterexample: `dbR2` has three qualifying future departures, all
on route `R2`.  The same query with the route parameter bound to `R2`
returns them, but `get_next_departure` — which the claim says considers the
trips of the supplied route — returns `None` because the bound route
identifier is the baked-in constant. -/
theorem c3_counterexample :
    dbR2.trips = [⟨"T2", "R2", "S1", 1⟩]
  ∧ nextDepartureQuery "R2" dbR2 "A" 0 ⟨0, 50⟩ =
      some (⟨⟨0, 100⟩, "H"⟩, ⟨⟨0, 200⟩, "H"⟩, ⟨⟨0, 300⟩, "H"⟩)
  ∧ get_next_departure dbR2 "A" 0 ⟨0, 50⟩ = none := by
  refine ⟨rfl, by decide, by decide⟩

/-- C4 (amended): on success the run's state sequence is
downloading(0) → downloading(25) → converting(50) → validating(90) →
idle(100), with the metadata saved and the zip deleted while the state is
still validating(90), before the final idle(100); the final state keeps
progress 100 (no trailing idle with progress `None`).  On any phase failure
the trace ends in error(progress `None`, message captured), the exception
is re-raised, nothing before the error event is a metadata save or zip
delete, and every state entered before the error is one of the three
working states. -/
theorem c4_lifecycle (cfg : RunConfig) (fs : FS) :
    ((updateData cfg fs).raised = none →
      (updateData cfg fs).trace =
        [Event.enter ⟨UState.downloading, some 0, none⟩,
         Event.enter ⟨UState.downloading, some 25, none⟩,
         Event.enter ⟨UState.converting, some 50, none⟩,
         Event.enter ⟨UState.validating, some 90, none⟩,
         Event.metadataSaved, Event.zipDeleted,
         Event.enter ⟨UState.idle, some 100, none⟩])
  ∧ (∀ m, (updateData cfg fs).raised = some m →
      ∃ pre, (updateData cfg fs).trace =
          pre ++ [Event.enter ⟨UState.error, none, some m⟩]
        ∧ pre ≠ []
        ∧ Event.metadataSaved ∉ pre
        ∧ Event.zipDeleted ∉ pre
        ∧ ∀ s, Event.enter s ∈ pre →
            (s.st = UState.downloading ∨ s.st = UState.converting ∨
             s.st = UState.validating)) := by
  obtain ⟨c, d, cv, v, f1, f2⟩ := cfg
  rcases c with _ | mc
  · rcases d with _ | md
    · rcases cv with _ | mcv
      · rcases v with _ | mv
        · exact ⟨fun _ => rfl, fun m hm => by simp [updateData] at hm⟩
        · refine ⟨fun hn => by simp [updateData] at hn, fun m hm => ?_⟩
          have hm2 : mv = m := by simpa [updateData] using hm
          subst hm2
          refine ⟨[Event.enter ⟨UState.downloading, some 0, none⟩,
                   Event.enter ⟨UState.downloading, some 25, none⟩,
                   Event.enter ⟨UState.converting, some 50, none⟩,
                   Event.enter ⟨UState.validating, some 90, none⟩],
                  rfl, by simp, by simp, by simp, ?_⟩
          intro s hs
          simp only [List.mem_cons, List.not_mem_nil, or_false,
            Event.enter.injEq] at hs
          rcases hs with h | h | h | h <;> subst h <;> simp
      · refine ⟨fun hn => by simp [updateData] at hn, fun m hm => ?_⟩
        have hm2 : mcv = m := by simpa [updateData] using hm
        subst hm2
        refine ⟨[Event.enter ⟨UState.downloading, some 0, none⟩,
                 Event.enter ⟨UState.downloading, some 25, none⟩,
                 Event.enter ⟨UState.converting, some 50, none⟩],
                rfl, by simp, by simp, by simp, ?_⟩
        intro s hs
        simp only [List.mem_cons, List.not_mem_nil, or_false,
          Event.enter.injEq] at hs
        rcases hs with h | h | h <;> subst h <;> simp
    · refine ⟨fun hn => by simp [updateData] at hn, fun m hm => ?_⟩
      have hm2 : md = m := by simpa [updateData] using hm
      subst hm2
      refine ⟨[Event.enter ⟨UState.downloading, some 0, none⟩,
               Event.enter ⟨UState.downloading, some 25, none⟩],
              rfl, by simp, by simp, by simp, ?_⟩
      intro s hs
      simp only [List.mem_cons, List.not_mem_nil, or_false,
        Event.enter.injEq] at hs
      rcases hs with h | h <;> subst h <;> simp
  · refine ⟨fun hn => by simp [updateData] at hn, fun m hm => ?_⟩
    have hm2 : mc = m := by simpa [updateData] using hm
    subst hm2
    refine ⟨[Event.enter ⟨UState.downloading, some 0, none⟩],
            rfl, by simp, by simp, by simp, ?_⟩
    intro s hs
    simp only [List.mem_cons, List.not_mem_nil, or_false,
      Event.enter.injEq] at hs
    subst hs
    simp

/-- C4 witness: the success clause applied to the all-phases-succeed run. -/
theorem c4_lifecycle_witness :
    (updateData cfgOk fsFull).trace =
      [Event.enter ⟨UState.downloading, some 0, none⟩,
       Event.enter ⟨UState.downloading, some 25, none⟩,
       Event.enter ⟨UState.converting, some 50, none⟩,
       Event.enter ⟨UState.validating, some 90, none⟩,
       Event.metadataSaved, Event.zipDeleted,
       Event.enter ⟨UState.idle, some 100, none⟩] :=
  (c4_lifecycle cfgOk fsFull).1 rfl

/-- C4 counterexample: on a fully successful run the trace ends at
idle(100) with the metadata save and zip deletion occurring before it, and
no idle state with progress `None` is ever entered — contradicting the
claimed tail idle(100) → idle(None) with the save/delete between them. -/
theorem c4_counterexample :
    (updateData cfgOk fsFull).trace =
      [Event.enter ⟨UState.downloading, some 0, none⟩,
       Event.enter ⟨UState.downloading, some 25, none⟩,
       Event.enter ⟨UState.converting, some 50, none⟩,
       Event.enter ⟨UState.validating, some 90, none⟩,
       Event.metadataSaved, Event.zipDeleted,
       Event.enter ⟨UState.idle, some 100, none⟩]
  ∧ Event.enter ⟨UState.idle, none, none⟩ ∉ (updateData cfgOk fsFull).trace := by
  exact ⟨rfl, by decide⟩

/-- C5 (amended): the old store is deleted by the cleanup phase at the very
start of the run — before the download — so any run that fails in the
download phase leaves no installed store at all; only the metadata file is
untouched by a failed run (it is written solely after validation
succeeds). -/
theorem c5_delete_first (cfg : RunConfig) (fs : FS) :
    ((updateData cfg fs).raised ≠ none →
       Event.metadataSaved ∉ (updateData cfg fs).trace
     ∧ (updateData cfg fs).fs.metaExists = fs.metaExists)
  ∧ (cfg.cleanupErr = none → cfg.downloadErr ≠ none →
       (updateData cfg fs).fs.dbExists = false) := by
  obtain ⟨c, d, cv, v, f1, f2⟩ := cfg
  rcases c with _ | mc <;> rcases d with _ | md <;>
    rcases cv with _ | mcv <;> rcases v with _ | mv <;>
    exact ⟨fun hn => by simp_all [updateData], fun h1 h2 => by simp_all [updateData]⟩

/-- C5 witness: the failed-download run over a filesystem that held a full
dataset: the metadata file is untouched but the store is gone. -/
theorem c5_delete_first_witness :
    (Event.metadataSaved ∉ (updateData cfgDlFail fsFull).trace
     ∧ (updateData cfgDlFail fsFull).fs.metaExists = fsFull.metaExists)
  ∧ (updateData cfgDlFail fsFull).fs.dbExists = false :=
  ⟨(c5_delete_first cfgDlFail fsFull).1 (by decide),
   (c5_delete_first cfgDlFail fsFull).2 rfl (by decide)⟩

/-- C5 counterexample: a database was installed (`fsFull.dbExists`), the
run fails at the download phase, yet afterwards the store no longer exists
— the previously installed dataset was not left untouched. -/
theorem c5_counterexample :
    fsFull.dbExists = true
  ∧ (updateData cfgDlFail fsFull).raised = some "network unreachable"
  ∧ (updateData cfgDlFail fsFull).fs.dbExists = false := by
  exact ⟨rfl, rfl, rfl⟩

/-- C6: the retry wrapper makes at most `MAX_DOWNLOAD_RETRIES = 3` attempts;
every delay actually slept equals the corresponding entry of the fixed
schedule `RETRY_DELAYS = [5, 15, 30]` (at most two delays occur, so the
30-second entry is never slept); and when all attempts fail the loop raises
a single terminal error carrying the attempt count and the last cause,
after which no further attempt is made. -/
theorem c6_retry_schedule (attemptErr : Nat → Option String) :
    (downloadWithRetry attemptErr).attemptsMade ≤ MAX_DOWNLOAD_RETRIES
  ∧ (∀ i, i < (downloadWithRetry attemptErr).delays.length →
      (downloadWithRetry attemptErr).delays.getD i 0 = RETRY_DELAYS.getD i 0)
  ∧ (downloadWithRetry attemptErr).delays.length ≤ 2
  ∧ ((∀ a, a < MAX_DOWNLOAD_RETRIES → attemptErr a ≠ none) →
      (downloadWithRetry attemptErr).outcome =
        Except.error (MAX_DOWNLOAD_RETRIES,
          (attemptErr (MAX_DOWNLOAD_RETRIES - 1)).getD "")
    ∧ (downloadWithRetry attemptErr).attemptsMade = MAX_DOWNLOAD_RETRIES) := by
  rcases h0 : attemptErr 0 with _ | e0
  · have hD : downloadWithRetry attemptErr = ⟨1, [], Except.ok ()⟩ := by
      simp [downloadWithRetry, retryAttempts, h0]
    rw [hD]
    refine ⟨by decide, fun i hi => by simp at hi, by decide, fun hall => ?_⟩
    exact absurd h0 (hall 0 (by decide))
  · rcases h1 : attemptErr 1 with _ | e1
    · have hD : downloadWithRetry attemptErr = ⟨2, [5], Except.ok ()⟩ := by
        simp [downloadWithRetry, retryAttempts, h0, h1, MAX_DOWNLOAD_RETRIES,
          RETRY_DELAYS]
      rw [hD]
      refine ⟨by decide, fun i hi => ?_, by decide, fun hall => ?_⟩
      · simp only [List.length_cons, List.length_nil] at hi
        interval_cases i
        · rfl
      · exact absurd h1 (hall 1 (by decide))
    · rcases h2 : attemptErr 2 with _ | e2
      · have hD : downloadWithRetry attemptErr = ⟨3, [5, 15], Except.ok ()⟩ := by
          simp [downloadWithRetry, retryAttempts, h0, h1, h2,
            MAX_DOWNLOAD_RETRIES, RETRY_DELAYS]
        rw [hD]
        refine ⟨by decide, fun i hi => ?_, by decide, fun hall => ?_⟩
        · simp only [List.length_cons, List.length_nil] at hi
          interval_cases i
          · rfl
          · rfl
        · exact absurd h2 (hall 2 (by decide))
      · have hD : downloadWithRetry attemptErr = ⟨3, [5, 15], Except.error (3, e2)⟩ := by
          simp [downloadWithRetry, retryAttempts, h0, h1, h2,
            MAX_DOWNLOAD_RETRIES, RETRY_DELAYS]
        rw [hD]
        refine ⟨by norm_num [MAX_DOWNLOAD_RETRIES], fun i hi => ?_, by simp,
          fun _ => ⟨?_, rfl⟩⟩
        · simp only [List.length_cons, List.length_nil] at hi
          interval_cases i
          · rfl
          · rfl
        · rw [show MAX_DOWNLOAD_RETRIES - 1 = 2 from rfl, h2]
          rfl

/-- C6 witness: the theorem applied to the always-failing attempt function;
all three attempts run and the terminal error carries count 3 and the last
cause. -/
theorem c6_retry_schedule_witness :
    (downloadWithRetry failAll).attemptsMade ≤ MAX_DOWNLOAD_RETRIES
  ∧ (downloadWithRetry failAll).outcome =
      Except.error (MAX_DOWNLOAD_RETRIES, (failAll (MAX_DOWNLOAD_RETRIES - 1)).getD "")
  ∧ (downloadWithRetry failAll).attemptsMade = MAX_DOWNLOAD_RETRIES :=
  ⟨(c6_retry_schedule failAll).1,
   ((c6_retry_schedule failAll).2.2.2 (fun a _ => by simp [failAll])).1,
   ((c6_retry_schedule failAll).2.2.2 (fun a _ => by simp [failAll])).2⟩

/-- C7 (amended): the standalone helper `download_gtfs_data` never leaves a
destination file behind on failure (its `except` clause deletes any partial
file before re-raising), but the data manager's own `_download_gtfs_zip`
has no such cleanup: a transport error mid-transfer raises with the
partially written destination file still in place. -/
theorem c7_partial_cleanup (o : FetchOutcome) (d0 : Bool) :
    ((download_gtfs_data o d0).raised ≠ none →
      (download_gtfs_data o d0).destExists = false)
  ∧ (∀ k m, (download_gtfs_zip (FetchOutcome.transportErr k m) d0).destExists = true
      ∧ (download_gtfs_zip (FetchOutcome.transportErr k m) d0).raised = some m) := by
  refine ⟨fun h => ?_, fun k m => ⟨rfl, rfl⟩⟩
  rcases o with s | ⟨k, m⟩ | k
  · rfl
  · rfl
  · exact absurd rfl h

/-- C7 witness: the helper's cleanup clause at a concrete failed fetch. -/
theorem c7_partial_cleanup_witness :
    (download_gtfs_data (FetchOutcome.transportErr 1 "connection reset") false).destExists
      = false
  ∧ (download_gtfs_zip (FetchOutcome.transportErr 2 "timeout") true).destExists = true :=
  ⟨(c7_partial_cleanup (FetchOutcome.transportErr 1 "connection reset") false).1
      (by decide),
   ((c7_partial_cleanup (FetchOutcome.transportErr 2 "timeout") true).2 2 "timeout").1⟩

/-- C7 counterexample: a transport error after one chunk in the data
manager's `_download_gtfs_zip` raises, yet the destination file still
exists afterwards — contradicting "for every fetch that fails the
destination file does not exist afterward". -/
theorem c7_counterexample :
    (download_gtfs_zip (FetchOutcome.transportErr 1 "connection reset") false).raised
      = some "connection reset"
  ∧ (download_gtfs_zip (FetchOutcome.transportErr 1 "connection reset") false).destExists
      = true := ⟨rfl, rfl⟩

/-- C8: validation succeeds exactly when the database file exists and each
of the six required tables is present with at least one row (a table absent
or empty makes `rowCount` zero and the run fail); and a validation failure
inside the pipeline is re-raised, failing the whole run. -/
theorem c8_validator (s : Store) :
    (validate_data s = Except.ok () ↔
      (s.fileExists = true ∧ ∀ t ∈ required_tables, 0 < rowCount s t))
  ∧ (∀ cfg fs m, cfg.cleanupErr = none → cfg.downloadErr = none →
      cfg.convertErr = none → cfg.validateErr = some m →
      (updateData cfg fs).raised = some m) := by
  constructor
  · constructor
    · intro h
      unfold validate_data at h
      split_ifs at h with hf hm
      rcases hfind : required_tables.find? (fun t => rowCount s t == 0) with _ | t
      · refine ⟨by revert hf; cases s.fileExists <;> simp, fun t ht => ?_⟩
        have := List.find?_eq_none.mp hfind t ht
        simp only [beq_iff_eq] at this
        exact Nat.pos_of_ne_zero this
      · rw [hfind] at h
        exact absurd h (by simp)
    · rintro ⟨hf, hcount⟩
      unfold validate_data
      rw [if_neg (by simp [hf])]
      have hmem : ∀ t ∈ required_tables, t ∈ s.tables.map Prod.fst := by
        intro t ht
        have h0 := hcount t ht
        unfold rowCount at h0
        rcases hfind : s.tables.find? (fun p => p.1 == t) with _ | p
        · rw [hfind] at h0
          exact absurd h0 (by simp)
        · have hpt := List.find?_some hfind
          simp only [beq_iff_eq] at hpt
          exact List.mem_map.mpr ⟨p, List.mem_of_find?_eq_some hfind, hpt⟩
      have hfil : required_tables.filter
          (fun t => !((s.tables.map Prod.fst).contains t)) = [] := by
        rw [List.filter_eq_nil_iff]
        intro t ht
        simpa using hmem t ht
      rw [if_neg (fun hC => hC hfil)]
      have hfind : required_tables.find? (fun t => rowCount s t == 0) = none := by
        rw [List.find?_eq_none]
        intro t ht
        simp only [beq_iff_eq]
        exact Nat.pos_iff_ne_zero.mp (hcount t ht)
      rw [hfind]
  · intro cfg fs m h1 h2 h3 h4
    obtain ⟨c, d, cv, v, f1, f2⟩ := cfg
    simp only at h1 h2 h3 h4
    subst h1
    subst h2
    subst h3
    subst h4
    rfl

/-- C8 witness: the characterization applied to a store holding all six
required tables non-empty, and to the same store with `stop_times`
emptied. -/
theorem c8_validator_witness :
    validate_data goodStore = Except.ok () :=
  (c8_validator goodStore).1.mpr (by decide)

/-- C9 (amended): the resolver groups the join by the full attribute tuple
(each distinct tuple appears exactly once in the grouped rows, so trips
contributing identical route/direction/headsign combinations collapse while
two directions stay separate), but the accumulator is instance state rather
than empty per call: a call finding rows appends them to the previously
accumulated `_routes`/`_active_routes`, so only the first call on a fresh
instance equals the deduplicated join; a call finding no rows resets
`_routes` and `_stop` but leaves `_active_routes` untouched. -/
theorem c9_accumulating_resolver :
    (∀ (db : DB) (sid : String) (jr : JoinRow),
        jr ∈ joinRows db sid → (groupedRows db sid).count jr = 1)
  ∧ (∀ (db : DB) (b : Backend), groupedRows db b.stop_id ≠ [] →
        (set_stop_info db b).routes =
          b.routes ++ (groupedRows db b.stop_id).map toRoute
      ∧ (set_stop_info db b).active_routes =
          b.active_routes ++ (groupedRows db b.stop_id).map JoinRow.route_id)
  ∧ (∀ (db : DB) (b : Backend), groupedRows db b.stop_id = [] →
        (set_stop_info db b).routes = [] ∧ (set_stop_info db b).stop = none
      ∧ (set_stop_info db b).active_routes = b.active_routes)
  ∧ (set_stop_info db9 (Backend.init "A")).routes.length = 1
  ∧ (set_stop_info db9b (Backend.init "A")).routes.length = 2 := by
  refine ⟨?_, ?_, ?_, by decide, by decide⟩
  · intro db sid jr hjr
    unfold groupedRows
    rw [List.count_dedup, if_pos hjr]
  · intro db b hne
    unfold set_stop_info
    rcases hg : groupedRows db b.stop_id with _ | ⟨g, tl⟩
    · exact absurd hg hne
    · exact ⟨rfl, rfl⟩
  · intro db b hg
    unfold set_stop_info
    rw [hg]
    exact ⟨rfl, rfl, rfl⟩

/-- C9 witness: the append clause applied to the two-identical-trips
database and a fresh backend (whose accumulators are empty, so this first
call produces exactly the grouped join). -/
theorem c9_accumulating_resolver_witness :
    (set_stop_info db9 (Backend.init "A")).routes =
      (Backend.init "A").routes ++
        (groupedRows db9 (Backend.init "A").stop_id).map toRoute
  ∧ (set_stop_info db9 (Backend.init "A")).active_routes =
      (Backend.init "A").active_routes ++
        (groupedRows db9 (Backend.init "A").stop_id).map JoinRow.route_id :=
  c9_accumulating_resolver.2.1 db9 (Backend.init "A") (by decide)

/-- C9 counterexample: the grouped join of `db9` at stop `A` has exactly
one entry, and a first resolution call yields one Route — but a second call
on the same instance yields two, contradicting "regardless of any prior
calls ... starts from an empty accumulator". -/
theorem c9_counterexample :
    ((groupedRows db9 "A").map toRoute).length = 1
  ∧ (set_stop_info db9 (Backend.init "A")).routes.length = 1
  ∧ (set_stop_info db9 (set_stop_info db9 (Backend.init "A"))).routes.length = 2 := by
  exact ⟨by decide, by decide, by decide⟩

/-- C10: metadata loading is total at the public interface: an absent,
unreadable or JSON-invalid file — and a `last_download` string rejected by
`fromisoformat` — all yield the empty dict through the catch-all, never an
exception; when parsing succeeds the `last_download` field comes back
converted from its ISO string, and `get_metadata` returns exactly the
loaded dict. -/
theorem c10_metadata_total (parse : String → Option Int) :
    load_metadata parse MetaFile.absent = MetaDict.empty
  ∧ load_metadata parse MetaFile.unreadable = MetaDict.empty
  ∧ load_metadata parse MetaFile.invalidJson = MetaDict.empty
  ∧ (∀ extra, load_metadata parse (MetaFile.valid none extra) = ⟨none, extra⟩)
  ∧ (∀ s extra, parse s = none →
      load_metadata parse (MetaFile.valid (some s) extra) = MetaDict.empty)
  ∧ (∀ s d extra, parse s = some d →
      load_metadata parse (MetaFile.valid (some s) extra) = ⟨some d, extra⟩)
  ∧ (∀ f, get_metadata parse f = load_metadata parse f) := by
  refine ⟨rfl, rfl, rfl, fun extra => rfl, fun s extra hp => ?_,
    fun s d extra hp => ?_, fun f => rfl⟩
  · simp [load_metadata, loadMetadataBody, hp]
  · simp [load_metadata, loadMetadataBody, hp]

/-- C10 witness: the unparsable-string and successful-parse clauses at the
concrete `fromisoformat` model. -/
theorem c10_metadata_total_witness :
    load_metadata isoParse (MetaFile.valid (some "garbage") []) = MetaDict.empty
  ∧ load_metadata isoParse (MetaFile.valid (some "2024-01-01T00:00:00") []) =
      ⟨some 1704067200, []⟩ :=
  ⟨(c10_metadata_total isoParse).2.2.2.2.1 "garbage" [] (by decide),
   (c10_metadata_total isoParse).2.2.2.2.2.1 "2024-01-01T00:00:00" 1704067200 []
     (by decide)⟩

end GTFS
